import Mathlib

/-!
Shallow embedding of `senders/proxy.go` from wavefront-sdk-go.

The Go file implements a proxy `Sender`: a router holding at most one
`internal.ConnectionHandler` per telemetry category (metric, histogram,
span, event), a default source string, and a self-monitoring metric
registry with per-category delta counters.

Modelling choices:
* `internal.ConnectionHandler` is not under `src/`; it is modelled as a
  record of observable state (address, flush interval, connectedness,
  failure count) together with oracle fields describing how its fallible
  operations (`Connect`, `SendData`, `Flush`) respond.  Fallible Go calls
  returning `error` become `Option String` (`some msg` = error) or
  `Except String`.
* Side effects of the sender's methods (connection attempts, line
  encodings, data handed to a transport, timer arming, flushes) are made
  explicit as an `Effect` trace returned alongside each result.
* The line encoders (`MetricLine`, `HistoLine`, `SpanLine`,
  `SpanLogJSON`, `EventLine`) live in other files of the `senders`
  package; they are out-of-scope collaborators and are passed in as an
  `Encoders` record of pure functions.
* Go `float64` values become `Rat` (order-faithful for the finite values
  compared here), `int`/`int64` become `Int`, `map[string]string`
  becomes an association list.
-/

namespace Senders

/-- Handler slot indices, mirroring the `const` block of proxy.go
(`metricHandler int = iota; histoHandler; spanHandler; eventHandler;
handlersCount`). -/
def metricHandler : Nat := 0

/-- Index of the histogram-distribution handler slot. -/
def histoHandler : Nat := 1

/-- Index of the tracing-span handler slot. -/
def spanHandler : Nat := 2

/-- Index of the events handler slot. -/
def eventHandler : Nat := 3

/-- Number of handler slots. -/
def handlersCount : Nat := 4

/-- Observable side effects of the sender's methods on its transports and
registry.  `sendData` records the exact line handed to `SendData`. -/
inductive Effect where
  | connectAttempt (idx : Nat)
  | encodeLine (idx : Nat)
  | sendData (idx : Nat) (line : String)
  | startHandler (idx : Nat)
  | startRegistry
  | closeHandler (idx : Nat)
  | stopRegistry
  | flushHandler (idx : Nat)
deriving DecidableEq, Repr

/-- Number of records handed to a transport (`sendData` effects) in a
trace. -/
def countSends (effs : List Effect) : Nat :=
  (effs.filter fun e => match e with | .sendData _ _ => true | _ => false).length

/-- Model of `internal.ConnectionHandler` (the internal package is not
under `src/`).  `addr`, `flushIntervalSeconds`, `connected` and
`failureCount` are its observable state; `connectResult`, `sendResult`
and `flushResult` are the oracle describing how the fallible operations
respond (`none` = success, `some msg` = the error returned). -/
structure ConnectionHandler where
  addr : String
  flushIntervalSeconds : Int
  connected : Bool
  connectResult : Option String
  sendResult : String → Option String
  flushResult : Option String
  failureCount : Int

/-- Mirrors `makeConnHandler` (proxy.go lines 123–127): builds the
address string `host:port` and a fresh handler with that flush interval.
A fresh handler starts disconnected with zero failures; its oracle
fields default to success (they are irrelevant until a send happens and
are universally quantified in the theorems about sends). -/
def makeConnHandler (host : String) (port flushIntervalSeconds : Int) : ConnectionHandler :=
  { addr := host ++ ":" ++ toString port
    flushIntervalSeconds := flushIntervalSeconds
    connected := false
    connectResult := none
    sendResult := fun _ => none
    flushResult := none
    failureCount := 0 }

/-- Model of `internal.MetricRegistry`: the name pfx and static tags it
was configured with, and the list of delta-counter names in creation
order (a counter is identified by its creation index). -/
structure MetricRegistry where
  pfx : String
  regTags : List (String × String)
  counters : List String
deriving DecidableEq, Repr

/-- Mirrors `registry.NewDeltaCounter(name)`: creates a fresh delta
counter in the registry and returns (updated registry, counter id). -/
def MetricRegistry.NewDeltaCounter (reg : MetricRegistry) (name : String) :
    MetricRegistry × Nat :=
  ({ reg with counters := reg.counters ++ [name] }, reg.counters.length)

/-- Mirrors the `proxySender` struct (proxy.go lines 24–51).  The sixteen
delta-counter fields are Go pointers, hence `Option Nat` (a counter id in
the registry, or `none` for a nil pointer — every field starts nil). -/
structure proxySender where
  handlers : List (Option ConnectionHandler)
  defaultSource : String
  internalRegistry : MetricRegistry
  pointsValid : Option Nat := none
  pointsInvalid : Option Nat := none
  pointsDropped : Option Nat := none
  pointReportErrors : Option Nat := none
  histogramsValid : Option Nat := none
  histogramsInvalid : Option Nat := none
  histogramsDropped : Option Nat := none
  histogramReportErrors : Option Nat := none
  spansValid : Option Nat := none
  spansInvalid : Option Nat := none
  spansDropped : Option Nat := none
  spanReportErrors : Option Nat := none
  spanLogsValid : Option Nat := none
  spanLogsInvalid : Option Nat := none
  spanLogsDropped : Option Nat := none
  spanLogReportErrors : Option Nat := none

/-- The `ProxyConfiguration` fields that proxy.go reads (the struct is
declared elsewhere in the `senders` package; fields from usage and spec
section 6). -/
structure ProxyConfiguration where
  Host : String
  MetricsPort : Int := 0
  DistributionPort : Int := 0
  TracingPort : Int := 0
  EventsPort : Int := 0
  FlushIntervalSeconds : Int := 0
deriving DecidableEq, Repr

/-- Modelled from the spec: `defaultProxyFlushInterval` is a fixed
default flush interval in seconds, declared outside `src/` ("defaulting
to a fixed value when unset or zero"). -/
def defaultProxyFlushInterval : Int := 1

/-- Modelled from the spec: `internal.GetHostname` resolves a host
identity with the given fallback label; resolution itself is declared
out of scope ("a string computed once at construction"), so the model
returns the label. -/
def GetHostname (name : String) : String := name

/-- Modelled from the spec: the delta-marker that `internal` prepends to
delta-counter names ("a documented prefix/suffix marking a value as
delta"). -/
def deltaMarker : String := "∆"

/-- Modelled from the spec: `internal.HasDeltaPrefix` — whether a name
already bears the delta marker. -/
def HasDeltaPrefix (name : String) : Bool := deltaMarker.toList.isPrefixOf name.toList

/-- Modelled from the spec: `internal.DeltaCounterName` — rewrites a name
to the delta convention by prepending the marker. -/
def DeltaCounterName (name : String) : String := deltaMarker ++ name

/-- Histogram granularity (the `histogram.Granularity` key of the `hgs`
map), out-of-scope collaborator; only its identity matters here. -/
abbrev Granularity := Nat

/-- Histogram centroid: a (value, count) pair (`histogram.Centroid`). -/
structure Centroid where
  Value : Rat
  Count : Int
deriving DecidableEq, Repr

/-- Span tag (the `SpanTag` type of the `senders` package). -/
structure SpanTag where
  Key : String
  Value : String
deriving DecidableEq, Repr

/-- Span log: a timestamped annotation attached to a span (the `SpanLog`
type of the `senders` package). -/
structure SpanLog where
  Timestamp : Int
  Fields : List (String × String)
deriving DecidableEq, Repr

/-- Event option (`event.Option`), an out-of-scope collaborator; only its
identity matters here. -/
abbrev EventOption := Nat

/-- The line encoders of the `senders` package (`MetricLine`, `HistoLine`,
`SpanLine`, `SpanLogJSON`, `EventLine`), pure out-of-scope collaborators
turning a typed record into a wire line or an error. -/
structure Encoders where
  MetricLine : String → Rat → Int → String → List (String × String) → String →
    Except String String
  HistoLine : String → List Centroid → List (Granularity × Bool) → Int → String →
    List (String × String) → String → Except String String
  SpanLine : String → Int → Int → String → String → String → List String →
    List String → List SpanTag → List SpanLog → String → Except String String
  SpanLogJSON : String → String → List SpanLog → Except String String
  EventLine : String → Int → Int → String → List (String × String) →
    List EventOption → Except String String

/-- The handler for slot `i`, or `none` when the slot is nil or out of
range (Go guarantees in-range indices). -/
def getHandler (s : proxySender) (i : Nat) : Option ConnectionHandler :=
  (s.handlers.get? i).getD none

/-- Mirrors the lazy-connect preamble shared by the four send methods:
`if !handler.Connected() { if err := handler.Connect(); err != nil {
return err } }`, then continues with `k`, which receives the effects
accumulated so far. -/
def withConnected (idx : Nat) (handler : ConnectionHandler)
    (k : List Effect → Except String Unit × List Effect) :
    Except String Unit × List Effect :=
  if handler.connected then k []
  else
    match handler.connectResult with
    | some e => (.error e, [.connectAttempt idx])
    | none => k [.connectAttempt idx]

/-- Mirrors the shared tail of the send methods: encode the line (an
encoding error is returned to the caller) and hand it to
`handler.SendData`, whose error is returned as-is. -/
def encodeAndSend (idx : Nat) (handler : ConnectionHandler)
    (encoded : Except String String) (eff : List Effect) :
    Except String Unit × List Effect :=
  match encoded with
  | .error e => (.error e, eff ++ [.encodeLine idx])
  | .ok line =>
    match handler.sendResult line with
    | some e => (.error e, eff ++ [.encodeLine idx, .sendData idx line])
    | none => (.ok (), eff ++ [.encodeLine idx, .sendData idx line])

/-- Mirrors `proxySender.SendMetric` (proxy.go lines 138–156). -/
def SendMetric (enc : Encoders) (s : proxySender) (name : String) (value : Rat)
    (ts : Int) (source : String) (tags : List (String × String)) :
    Except String Unit × List Effect :=
  match getHandler s metricHandler with
  | none => (.error "proxy metrics port not provided, cannot send metric data", [])
  | some handler =>
    withConnected metricHandler handler fun eff =>
      encodeAndSend metricHandler handler
        (enc.MetricLine name value ts source tags s.defaultSource) eff

/-- Mirrors `proxySender.SendDeltaCounter` (proxy.go lines 158–169):
reject empty names, rewrite to the delta convention when the marker is
missing, send via the metric path only for positive values. -/
def SendDeltaCounter (enc : Encoders) (s : proxySender) (name : String) (value : Rat)
    (ts : Int) (source : String) (tags : List (String × String)) :
    Except String Unit × List Effect :=
  if name = "" then (.error "empty metric name", [])
  else
    let name := if HasDeltaPrefix name then name else DeltaCounterName name
    if value > 0 then SendMetric enc s name value ts source tags
    else (.ok (), [])

/-- Mirrors `proxySender.SendDistribution` (proxy.go lines 171–189). -/
def SendDistribution (enc : Encoders) (s : proxySender) (name : String)
    (centroids : List Centroid) (hgs : List (Granularity × Bool)) (ts : Int)
    (source : String) (tags : List (String × String)) :
    Except String Unit × List Effect :=
  match getHandler s histoHandler with
  | none => (.error "proxy distribution port not provided, cannot send distribution data", [])
  | some handler =>
    withConnected histoHandler handler fun eff =>
      encodeAndSend histoHandler handler
        (enc.HistoLine name centroids hgs ts source tags s.defaultSource) eff

/-- Mirrors `proxySender.SendSpan` (proxy.go lines 191–220): send the
span line; when span logs are present, additionally encode them via
`SpanLogJSON` keyed by trace id and span id and send them as a second
record, returning any error from that second step. -/
def SendSpan (enc : Encoders) (s : proxySender) (name : String)
    (startMillis durationMillis : Int) (source traceId spanId : String)
    (parents followsFrom : List String) (tags : List SpanTag)
    (spanLogs : List SpanLog) : Except String Unit × List Effect :=
  match getHandler s spanHandler with
  | none => (.error "proxy tracing port not provided, cannot send span data", [])
  | some handler =>
    withConnected spanHandler handler fun eff =>
      match enc.SpanLine name startMillis durationMillis source traceId spanId
          parents followsFrom tags spanLogs s.defaultSource with
      | .error e => (.error e, eff ++ [.encodeLine spanHandler])
      | .ok line =>
        match handler.sendResult line with
        | some e => (.error e, eff ++ [.encodeLine spanHandler, .sendData spanHandler line])
        | none =>
          if spanLogs.length > 0 then
            match enc.SpanLogJSON traceId spanId spanLogs with
            | .error e =>
              (.error e, eff ++ [.encodeLine spanHandler, .sendData spanHandler line,
                .encodeLine spanHandler])
            | .ok logs =>
              match handler.sendResult logs with
              | some e =>
                (.error e, eff ++ [.encodeLine spanHandler, .sendData spanHandler line,
                  .encodeLine spanHandler, .sendData spanHandler logs])
              | none =>
                (.ok (), eff ++ [.encodeLine spanHandler, .sendData spanHandler line,
                  .encodeLine spanHandler, .sendData spanHandler logs])
          else (.ok (), eff ++ [.encodeLine spanHandler, .sendData spanHandler line])

/-- Mirrors `proxySender.SendEvent` (proxy.go lines 222–240). -/
def SendEvent (enc : Encoders) (s : proxySender) (name : String)
    (startMillis endMillis : Int) (source : String)
    (tags : List (String × String)) (setters : List EventOption) :
    Except String Unit × List Effect :=
  match getHandler s eventHandler with
  | none => (.error "proxy events port not provided, cannot send events data", [])
  | some handler =>
    withConnected eventHandler handler fun eff =>
      encodeAndSend eventHandler handler
        (enc.EventLine name startMillis endMillis source tags setters) eff

/-- Effects of a `for _, h := range handlers { if h != nil { mk-effect } }`
loop, with `n` the index of the list's head. -/
def handlerEffs (mk : Nat → Effect) (n : Nat) :
    List (Option ConnectionHandler) → List Effect
  | [] => []
  | none :: t => handlerEffs mk (n + 1) t
  | some _ :: t => mk n :: handlerEffs mk (n + 1) t

/-- Mirrors `proxySender.Start` (proxy.go lines 129–136): start every
non-nil handler (arming its flush timer), then start the registry. -/
def Start (s : proxySender) : List Effect :=
  handlerEffs Effect.startHandler 0 s.handlers ++ [Effect.startRegistry]

/-- Mirrors `proxySender.Close` (proxy.go lines 242–249): close every
non-nil handler, then stop the registry. -/
def Close (s : proxySender) : List Effect :=
  handlerEffs Effect.closeHandler 0 s.handlers ++ [Effect.stopRegistry]

/-- The loop body of `proxySender.Flush`: for each non-nil handler (head
index `n`), call its `Flush` and append `err.Error() + "\n"` to the
accumulated error string when it fails. -/
def flushLoop (n : Nat) : List (Option ConnectionHandler) → String × List Effect
  | [] => ("", [])
  | none :: t => flushLoop (n + 1) t
  | some h :: t =>
    let r := flushLoop (n + 1) t
    match h.flushResult with
    | some e => (e ++ "\n" ++ r.1, Effect.flushHandler n :: r.2)
    | none => (r.1, Effect.flushHandler n :: r.2)

/-- Specification-side view of the flush loop's failures: the error
messages of the failing configured handlers, in slot order. -/
def failedFlushMsgs (l : List (Option ConnectionHandler)) : List String :=
  l.filterMap fun o => o.bind ConnectionHandler.flushResult

/-- Specification-side concatenation of failure messages: each message
followed by a newline separator, in order. -/
def concatMsgs : List String → String
  | [] => ""
  | m :: ms => m ++ "\n" ++ concatMsgs ms

/-- Mirrors Go `strings.Trim(s, "\n")`: remove leading and trailing
newline characters. -/
def trimNewlines (s : String) : String :=
  String.mk (((s.toList.dropWhile (· = '\n')).reverse.dropWhile (· = '\n')).reverse)

/-- Mirrors `proxySender.Flush` (proxy.go lines 251–265): flush every
non-nil handler, concatenating error messages separated by newlines;
return an error exactly when the accumulated string is non-empty, with
outer newlines trimmed. -/
def Flush (s : proxySender) : Option String × List Effect :=
  let r := flushLoop 0 s.handlers
  (if r.1 = "" then none else some (trimNewlines r.1), r.2)

/-- Two's-complement wrap of Go `int64` addition results. -/
def i64wrap (n : Int) : Int := (n + 2 ^ 63) % 2 ^ 64 - 2 ^ 63

/-- The accumulation loop of `proxySender.GetFailureCount`:
`failures += h.GetFailureCount()` over the non-nil handlers, with Go
`int64` wrapping on each addition. -/
def failureLoop (acc : Int) : List (Option ConnectionHandler) → Int
  | [] => acc
  | none :: t => failureLoop acc t
  | some h :: t => failureLoop (i64wrap (acc + h.failureCount)) t

/-- Specification-side view of the failure counters of the configured
handlers, in slot order. -/
def failureCounts (l : List (Option ConnectionHandler)) : List Int :=
  l.filterMap fun o => o.map ConnectionHandler.failureCount

/-- Mirrors `proxySender.GetFailureCount` (proxy.go lines 267–275).  The
method only reads each handler's failure counter; it performs none of
the transport side effects, hence the empty effect trace. -/
def GetFailureCount (s : proxySender) : Int × List Effect :=
  (failureLoop 0 s.handlers, [])

/-- The in-place update of the caller's configuration performed by
`NewProxySender` (proxy.go lines 61–63): a zero flush interval is
overwritten with the default, everything else is kept. -/
def updCfg (cfg : ProxyConfiguration) : ProxyConfiguration :=
  { cfg with FlushIntervalSeconds :=
      if cfg.FlushIntervalSeconds = 0 then defaultProxyFlushInterval
      else cfg.FlushIntervalSeconds }

/-- The handler slots built by `NewProxySender` (proxy.go lines 58 and
65–79): a four-slot array, slot `i` assigned a fresh handler exactly
when the corresponding port is non-zero, nil otherwise. -/
def buildHandlers (cfg : ProxyConfiguration) : List (Option ConnectionHandler) :=
  [if cfg.MetricsPort ≠ 0 then
      some (makeConnHandler cfg.Host cfg.MetricsPort cfg.FlushIntervalSeconds)
    else none,
   if cfg.DistributionPort ≠ 0 then
      some (makeConnHandler cfg.Host cfg.DistributionPort cfg.FlushIntervalSeconds)
    else none,
   if cfg.TracingPort ≠ 0 then
      some (makeConnHandler cfg.Host cfg.TracingPort cfg.FlushIntervalSeconds)
    else none,
   if cfg.EventsPort ≠ 0 then
      some (makeConnHandler cfg.Host cfg.EventsPort cfg.FlushIntervalSeconds)
    else none]

/-- Mirrors `NewProxySender` (proxy.go lines 55–121).  Go mutates `*cfg`
in place; the model returns the updated configuration as the second
component, and the effects of the construction (the embedded `Start`
call on success) as the third.  The pid tag value and the version gauge
use out-of-scope collaborators (`os.Getpid`, `internal.GetSemVer`) and
are modelled as a placeholder tag and omitted gauge; no claim concerns
them.  The sixteen counter assignments below reproduce the source lines
93–111 verbatim, including which field each result is stored into. -/
def NewProxySender (cfg0 : ProxyConfiguration) :
    Except String proxySender × ProxyConfiguration × List Effect :=
  let cfg : ProxyConfiguration := updCfg cfg0
  let reg : MetricRegistry :=
    { pfx := "~sdk.go.core.sender.proxy"
      regTags := [("pid", "<pid>")]
      counters := [] }
  let r1 := reg.NewDeltaCounter "points.valid"
  let r2 := r1.1.NewDeltaCounter "points.invalid"
  let r3 := r2.1.NewDeltaCounter "points.dropped"
  let r4 := r3.1.NewDeltaCounter "points.report.errors"
  let r5 := r4.1.NewDeltaCounter "histograms.valid"
  let r6 := r5.1.NewDeltaCounter "histograms.invalid"
  let r7 := r6.1.NewDeltaCounter "histograms.dropped"
  let r8 := r7.1.NewDeltaCounter "histograms.report.errors"
  let r9 := r8.1.NewDeltaCounter "spans.valid"
  let r10 := r9.1.NewDeltaCounter "spans.invalid"
  let r11 := r10.1.NewDeltaCounter "spans.dropped"
  let r12 := r11.1.NewDeltaCounter "spans.report.errors"
  let r13 := r12.1.NewDeltaCounter "span_logs.valid"
  let r14 := r13.1.NewDeltaCounter "span_logs.invalid"
  let r15 := r14.1.NewDeltaCounter "span_logs.dropped"
  let r16 := r15.1.NewDeltaCounter "span_logs.report.errors"
  let sender : proxySender :=
    { handlers := buildHandlers cfg
      defaultSource := GetHostname "wavefront_proxy_sender"
      internalRegistry := r16.1
      -- Source lines 93–96 assign `r1.2`..`r4.2` to the fields
      -- `pointsValid, pointsInvalid, pointsInvalid, pointsInvalid`: the
      -- last write to `pointsInvalid` wins (the "points.invalid" and
      -- "points.dropped" counter ids `r2.2` and `r3.2` are dead stores),
      -- and `pointsDropped` and `pointReportErrors` are never assigned,
      -- keeping their nil initial value.
      pointsValid := some r1.2
      pointsInvalid := some r4.2
      pointsDropped := none
      pointReportErrors := none
      histogramsValid := some r5.2
      histogramsInvalid := some r6.2
      histogramsDropped := some r7.2
      histogramReportErrors := some r8.2
      spansValid := some r9.2
      spansInvalid := some r10.2
      spansDropped := some r11.2
      spanReportErrors := some r12.2
      spanLogsValid := some r13.2
      spanLogsInvalid := some r14.2
      spanLogsDropped := some r15.2
      spanLogReportErrors := some r16.2 }
  if sender.handlers.any Option.isSome then (.ok sender, cfg, Start sender)
  else (.error "at least one proxy port should be enabled", cfg, [])

/-! Concrete instances used to exercise the model on closed inputs. -/

/-- Concrete encoders that always succeed, tagging each line with its
category. -/
def testEncoders : Encoders :=
  { MetricLine := fun n _ _ _ _ _ => .ok ("m:" ++ n)
    HistoLine := fun n _ _ _ _ _ _ => .ok ("h:" ++ n)
    SpanLine := fun n _ _ _ _ _ _ _ _ _ _ => .ok ("s:" ++ n)
    SpanLogJSON := fun t s _ => .ok ("l:" ++ t ++ ":" ++ s)
    EventLine := fun n _ _ _ _ _ => .ok ("e:" ++ n) }

/-- Concrete encoders whose span-log encoding fails (one malformed log
entry). -/
def failLogEncoders : Encoders :=
  { testEncoders with SpanLogJSON := fun _ _ _ => .error "span log encoding failed" }

/-- A connected handler whose operations all succeed. -/
def testHandler : ConnectionHandler :=
  { addr := "localhost:2878"
    flushIntervalSeconds := 1
    connected := true
    connectResult := none
    sendResult := fun _ => none
    flushResult := none
    failureCount := 0 }

/-- An empty registry for hand-built senders. -/
def emptyRegistry : MetricRegistry := { pfx := "", regTags := [], counters := [] }

/-- A sender with every category configured and working. -/
def testSender : proxySender :=
  { handlers := [some testHandler, some testHandler, some testHandler, some testHandler]
    defaultSource := "host1"
    internalRegistry := emptyRegistry }

/-- A sender with no category configured (all four handler slots nil). -/
def emptySender : proxySender :=
  { handlers := [none, none, none, none]
    defaultSource := "host1"
    internalRegistry := emptyRegistry }

/-- A metric handler whose flush fails and which has accumulated 3
transmission failures. -/
def failingMetricHandler : ConnectionHandler :=
  { testHandler with flushResult := some "metric flush failed", failureCount := 3 }

/-- A histogram handler whose flush fails and which has accumulated 2
transmission failures. -/
def failingHistoHandler : ConnectionHandler :=
  { testHandler with flushResult := some "histo flush failed", failureCount := 2 }

/-- A sender with independently failing metric and histogram transports
and no span or event transport. -/
def twoFailSender : proxySender :=
  { handlers := [some failingMetricHandler, some failingHistoHandler, none, none]
    defaultSource := "host1"
    internalRegistry := emptyRegistry }

/-- A valid configuration with every port enabled. -/
def cfgExample : ProxyConfiguration :=
  { Host := "localhost", MetricsPort := 2878, DistributionPort := 2878,
    TracingPort := 30000, EventsPort := 2878, FlushIntervalSeconds := 1 }

/-- A configuration with only the metrics port enabled and an unset
flush interval. -/
def cfgMetricOnly : ProxyConfiguration := { Host := "h", MetricsPort := 2878 }

/-! Theorems. -/

/-- C1: for every category whose transport handler is nil, the
corresponding submission call returns that category's descriptive "not
configured" error with an empty effect trace — no connection attempt, no
encoding, no line handed to any transport. -/
theorem unconfigured_category_fails_immediately (enc : Encoders) (s : proxySender)
    (name source traceId spanId : String) (value : Rat)
    (ts startMillis endMillis durationMillis : Int)
    (tags : List (String × String)) (centroids : List Centroid)
    (hgs : List (Granularity × Bool)) (parents followsFrom : List String)
    (stags : List SpanTag) (slogs : List SpanLog) (setters : List EventOption) :
    (getHandler s metricHandler = none →
      SendMetric enc s name value ts source tags =
        (.error "proxy metrics port not provided, cannot send metric data", [])) ∧
    (getHandler s histoHandler = none →
      SendDistribution enc s name centroids hgs ts source tags =
        (.error "proxy distribution port not provided, cannot send distribution data", [])) ∧
    (getHandler s spanHandler = none →
      SendSpan enc s name startMillis durationMillis source traceId spanId parents
          followsFrom stags slogs =
        (.error "proxy tracing port not provided, cannot send span data", [])) ∧
    (getHandler s eventHandler = none →
      SendEvent enc s name startMillis endMillis source tags setters =
        (.error "proxy events port not provided, cannot send events data", [])) := by
  refine ⟨fun h => ?_, fun h => ?_, fun h => ?_, fun h => ?_⟩ <;>
    simp [SendMetric, SendDistribution, SendSpan, SendEvent, h]

/-- Witness for C1: all four submission calls on a sender with no
configured category fail with their "not configured" errors and empty
effect traces. -/
theorem unconfigured_category_fails_immediately_witness :
    SendMetric testEncoders emptySender "cpu" 1 0 "src" [] =
      (.error "proxy metrics port not provided, cannot send metric data", []) ∧
    SendDistribution testEncoders emptySender "lat" [] [] 0 "src" [] =
      (.error "proxy distribution port not provided, cannot send distribution data", []) ∧
    SendSpan testEncoders emptySender "op" 0 5 "src" "t1" "s1" [] [] [] [] =
      (.error "proxy tracing port not provided, cannot send span data", []) ∧
    SendEvent testEncoders emptySender "ev" 0 1 "src" [] [] =
      (.error "proxy events port not provided, cannot send events data", []) := by
  exact ⟨(unconfigured_category_fails_immediately testEncoders emptySender
      "cpu" "src" "t1" "s1" 1 0 0 1 5 [] [] [] [] [] [] [] []).1 rfl,
    (unconfigured_category_fails_immediately testEncoders emptySender
      "lat" "src" "t1" "s1" 1 0 0 1 5 [] [] [] [] [] [] [] []).2.1 rfl,
    (unconfigured_category_fails_immediately testEncoders emptySender
      "op" "src" "t1" "s1" 1 0 0 1 5 [] [] [] [] [] [] [] []).2.2.1 rfl,
    (unconfigured_category_fails_immediately testEncoders emptySender
      "ev" "src" "t1" "s1" 1 0 0 1 5 [] [] [] [] [] [] [] []).2.2.2 rfl⟩

/-- C2: a delta-counter submission with a non-empty name and a
non-positive value returns success with an empty effect trace — no
connect, no encoding, no line handed to any transport. -/
theorem sendDeltaCounter_nonpositive_noop (enc : Encoders) (s : proxySender)
    (name : String) (value : Rat) (ts : Int) (source : String)
    (tags : List (String × String)) (hname : name ≠ "") (hval : value ≤ 0) :
    SendDeltaCounter enc s name value ts source tags = (.ok (), []) := by
  simp [SendDeltaCounter, hname, not_lt.mpr hval]

/-- Witness for C2: a delta counter with value -1 is silently dropped. -/
theorem sendDeltaCounter_nonpositive_noop_witness :
    SendDeltaCounter testEncoders testSender "cpu" (-1) 0 "src" [] = (.ok (), []) :=
  sendDeltaCounter_nonpositive_noop testEncoders testSender "cpu" (-1) 0 "src" []
    (by decide) (by decide)

/-- C3: delta-counter submission rejects an empty name with an error and
an empty effect trace; for a positive value, a non-empty name lacking
the delta marker is submitted through the metric path under
`DeltaCounterName name`, and a name already bearing the marker is
submitted through the metric path unchanged. -/
theorem sendDeltaCounter_name_policy (enc : Encoders) (s : proxySender)
    (name : String) (value : Rat) (ts : Int) (source : String)
    (tags : List (String × String)) :
    (name = "" → SendDeltaCounter enc s name value ts source tags =
      (.error "empty metric name", [])) ∧
    (name ≠ "" → HasDeltaPrefix name = false → 0 < value →
      SendDeltaCounter enc s name value ts source tags =
        SendMetric enc s (DeltaCounterName name) value ts source tags) ∧
    (name ≠ "" → HasDeltaPrefix name = true → 0 < value →
      SendDeltaCounter enc s name value ts source tags =
        SendMetric enc s name value ts source tags) := by
  refine ⟨fun h => by simp [SendDeltaCounter, h], fun h hp hv => ?_, fun h hp hv => ?_⟩ <;>
    simp [SendDeltaCounter, h, hp, hv]

/-- Witness for C3: the empty name errors; "cpu" is rewritten to
`DeltaCounterName "cpu"`; a name already starting with the delta marker
is submitted unchanged. -/
theorem sendDeltaCounter_name_policy_witness :
    SendDeltaCounter testEncoders testSender "" 1 0 "src" [] =
      (.error "empty metric name", []) ∧
    SendDeltaCounter testEncoders testSender "cpu" 1 0 "src" [] =
      SendMetric testEncoders testSender (DeltaCounterName "cpu") 1 0 "src" [] ∧
    SendDeltaCounter testEncoders testSender "∆cpu" 1 0 "src" [] =
      SendMetric testEncoders testSender "∆cpu" 1 0 "src" [] := by
  refine ⟨(sendDeltaCounter_name_policy testEncoders testSender "" 1 0 "src" []).1 rfl,
    (sendDeltaCounter_name_policy testEncoders testSender "cpu" 1 0 "src" []).2.1
      (by decide) (by decide) (by decide),
    (sendDeltaCounter_name_policy testEncoders testSender "∆cpu" 1 0 "src" []).2.2
      (by decide) (by decide) (by decide)⟩

/-- C4: for a span submission on a connected span transport whose span
line encodes to `line` and whose primary send succeeds: the primary line
is always handed to the transport; with no span logs the result is
success with exactly that one record sent; with span logs, the logs are
encoded via `SpanLogJSON traceId spanId` and sent as a second record —
an encoding failure is returned (with only the primary record sent), a
send failure of the second record is returned even though the primary
line was already handed over, and on success exactly the two records are
sent. -/
theorem sendSpan_spanLogs_policy (enc : Encoders) (s : proxySender) (name : String)
    (startMillis durationMillis : Int) (source traceId spanId : String)
    (parents followsFrom : List String) (tags : List SpanTag) (slogs : List SpanLog)
    (h : ConnectionHandler) (line : String) (r : Except String Unit × List Effect)
    (hh : getHandler s spanHandler = some h)
    (hconn : h.connected = true)
    (henc : enc.SpanLine name startMillis durationMillis source traceId spanId
      parents followsFrom tags slogs s.defaultSource = .ok line)
    (hsend : h.sendResult line = none)
    (hr : SendSpan enc s name startMillis durationMillis source traceId spanId
      parents followsFrom tags slogs = r) :
    Effect.sendData spanHandler line ∈ r.2 ∧
    (slogs = [] →
      r = (.ok (), [.encodeLine spanHandler, .sendData spanHandler line])) ∧
    (slogs ≠ [] → ∀ e, enc.SpanLogJSON traceId spanId slogs = .error e →
      r.1 = .error e ∧ countSends r.2 = 1) ∧
    (slogs ≠ [] → ∀ lj, enc.SpanLogJSON traceId spanId slogs = .ok lj →
      (∀ e, h.sendResult lj = some e →
        r.1 = .error e ∧ Effect.sendData spanHandler lj ∈ r.2) ∧
      (h.sendResult lj = none →
        r = (.ok (), [.encodeLine spanHandler, .sendData spanHandler line,
          .encodeLine spanHandler, .sendData spanHandler lj]))) := by
  subst hr
  simp only [SendSpan, hh, withConnected, hconn, if_true, henc, hsend, List.nil_append]
  cases slogs with
  | nil => simp [countSends]
  | cons a as =>
    cases hJ : enc.SpanLogJSON traceId spanId (a :: as) with
    | error e => simp [hJ, countSends]
    | ok lj =>
      cases hlj : h.sendResult lj with
      | none => simp [hJ, hlj, countSends]
      | some e => simp [hJ, hlj, countSends]

/-- Witness for C4: with one span log and an encoder whose span-log
encoding fails, the call errors while the primary span line was still
handed to the transport (exactly one record sent); with no span logs the
call succeeds sending exactly the span line. -/
theorem sendSpan_spanLogs_policy_witness :
    (SendSpan failLogEncoders testSender "op" 0 5 "src" "t1" "s1" [] [] []
      [⟨1, []⟩]).1 = .error "span log encoding failed" ∧
    countSends (SendSpan failLogEncoders testSender "op" 0 5 "src" "t1" "s1" [] [] []
      [⟨1, []⟩]).2 = 1 ∧
    SendSpan testEncoders testSender "op" 0 5 "src" "t1" "s1" [] [] [] [] =
      (.ok (), [.encodeLine spanHandler, .sendData spanHandler "s:op"]) := by
  have hfail := (sendSpan_spanLogs_policy failLogEncoders testSender "op" 0 5 "src"
    "t1" "s1" [] [] [] [⟨1, []⟩] testHandler "s:op" _ rfl rfl rfl rfl rfl).2.2.1
    (by decide) "span log encoding failed" rfl
  exact ⟨hfail.1, hfail.2,
    (sendSpan_spanLogs_policy testEncoders testSender "op" 0 5 "src" "t1" "s1"
      [] [] [] [] testHandler "s:op" _ rfl rfl rfl rfl rfl).2.1 rfl⟩

/-- Construction succeeds exactly when some built handler slot is
occupied (the final loop of `NewProxySender`, lines 113–120). -/
theorem newProxySender_isOk (cfg : ProxyConfiguration) :
    (∃ s, (NewProxySender cfg).1 = .ok s) ↔
      (buildHandlers (updCfg cfg)).any Option.isSome = true := by
  by_cases hb : (buildHandlers (updCfg cfg)).any Option.isSome
  · simp only [hb, iff_true]
    cases h : (NewProxySender cfg).1 with
    | error e => simp [NewProxySender, hb] at h
    | ok s => exact ⟨s, rfl⟩
  · simp only [Bool.not_eq_true] at hb
    simp [NewProxySender, hb]

/-- Construction fails with the configuration error when no handler slot
is occupied. -/
theorem newProxySender_error (cfg : ProxyConfiguration)
    (hb : (buildHandlers (updCfg cfg)).any Option.isSome = false) :
    (NewProxySender cfg).1 = .error "at least one proxy port should be enabled" := by
  simp [NewProxySender, hb]

/-- The handlers of a successfully constructed sender are exactly the
slots built from the updated configuration. -/
theorem newProxySender_handlers (cfg : ProxyConfiguration) (s : proxySender)
    (hs : (NewProxySender cfg).1 = .ok s) :
    s.handlers = buildHandlers (updCfg cfg) := by
  by_cases hb : (buildHandlers (updCfg cfg)).any Option.isSome
  · simp only [NewProxySender, hb, if_true] at hs
    injection hs with h
    subst h
    rfl
  · simp only [Bool.not_eq_true] at hb
    simp [NewProxySender, hb] at hs

/-- C5: construction with all four ports zero returns the configuration
error (and hence no sender); a successfully constructed sender has a
transport in a category's slot exactly when that category's port is
non-zero; and construction succeeds whenever at least one port is
non-zero. -/
theorem newProxySender_port_configuration (cfg : ProxyConfiguration) :
    (cfg.MetricsPort = 0 → cfg.DistributionPort = 0 → cfg.TracingPort = 0 →
      cfg.EventsPort = 0 →
      (NewProxySender cfg).1 = .error "at least one proxy port should be enabled") ∧
    (∀ s, (NewProxySender cfg).1 = .ok s →
      ((getHandler s metricHandler).isSome ↔ cfg.MetricsPort ≠ 0) ∧
      ((getHandler s histoHandler).isSome ↔ cfg.DistributionPort ≠ 0) ∧
      ((getHandler s spanHandler).isSome ↔ cfg.TracingPort ≠ 0) ∧
      ((getHandler s eventHandler).isSome ↔ cfg.EventsPort ≠ 0)) ∧
    (¬(cfg.MetricsPort = 0 ∧ cfg.DistributionPort = 0 ∧ cfg.TracingPort = 0 ∧
        cfg.EventsPort = 0) →
      ∃ s, (NewProxySender cfg).1 = .ok s) := by
  refine ⟨fun h1 h2 h3 h4 => ?_, fun s hs => ?_, fun hne => ?_⟩
  · exact newProxySender_error cfg (by simp [buildHandlers, updCfg, h1, h2, h3, h4])
  · have hh := newProxySender_handlers cfg s hs
    refine ⟨?_, ?_, ?_, ?_⟩ <;>
      · simp only [getHandler, hh, buildHandlers, updCfg, metricHandler, histoHandler,
          spanHandler, eventHandler]
        split <;> simp_all
  · rw [newProxySender_isOk]
    by_cases hm : cfg.MetricsPort = 0 <;> by_cases hd : cfg.DistributionPort = 0 <;>
      by_cases ht : cfg.TracingPort = 0 <;> by_cases he : cfg.EventsPort = 0 <;>
      simp [buildHandlers, updCfg, hm, hd, ht, he]
    exact absurd ⟨hm, hd, ht, he⟩ hne

/-- Witness for C5: an all-zero configuration is rejected, and the
metrics-only configuration yields a sender whose metric slot is occupied
and whose histogram slot is empty. -/
theorem newProxySender_port_configuration_witness :
    (NewProxySender { Host := "h" }).1 =
      .error "at least one proxy port should be enabled" ∧
    ∃ s, (NewProxySender cfgMetricOnly).1 = .ok s ∧
      ((getHandler s metricHandler).isSome ↔ cfgMetricOnly.MetricsPort ≠ 0) ∧
      ((getHandler s histoHandler).isSome ↔ cfgMetricOnly.DistributionPort ≠ 0) := by
  have hthm := newProxySender_port_configuration cfgMetricOnly
  obtain ⟨s, hs⟩ := hthm.2.2 (by decide)
  exact ⟨(newProxySender_port_configuration { Host := "h" }).1 rfl rfl rfl rfl,
    s, hs, (hthm.2.1 s hs).1, (hthm.2.1 s hs).2.1⟩

/-- C6 (evaluation at the failing input): a constructed sender does not
hold four distinct counters for the metric category.  `pointsDropped`
and `pointReportErrors` stay nil, `pointsInvalid` holds counter id 3 —
the counter registered under the name "points.report.errors", not
"points.invalid" — while the histogram category (like the span and
span-log ones) correctly receives four distinct counters (ids 4–7). -/
theorem pointsCounters_aliased :
    ((NewProxySender cfgExample).1.map fun s =>
      (s.pointsValid, s.pointsInvalid, s.pointsDropped, s.pointReportErrors)) =
      .ok (some 0, some 3, none, none) ∧
    ((NewProxySender cfgExample).1.map fun s =>
      (s.internalRegistry.counters.get? 1, s.internalRegistry.counters.get? 3)) =
      .ok (some "points.invalid", some "points.report.errors") ∧
    ((NewProxySender cfgExample).1.map fun s =>
      (s.histogramsValid, s.histogramsInvalid, s.histogramsDropped,
        s.histogramReportErrors)) = .ok (some 4, some 5, some 6, some 7) :=
  ⟨rfl, rfl, rfl⟩

/-- Membership in a per-handler effect loop: the effect for slot `i` is
emitted exactly when `i` points at an occupied slot of the remaining
list (whose head has index `n`). -/
theorem mem_handlerEffs (mk : Nat → Effect) (hinj : ∀ a b, mk a = mk b → a = b)
    (i : Nat) (l : List (Option ConnectionHandler)) :
    ∀ n, (mk i ∈ handlerEffs mk n l ↔
      n ≤ i ∧ ((l.get? (i - n)).getD none).isSome = true) := by
  induction l with
  | nil => intro n; simp [handlerEffs]
  | cons hd t ih =>
    intro n
    cases hd with
    | none =>
      rw [show handlerEffs mk n (none :: t) = handlerEffs mk (n + 1) t from rfl, ih (n + 1)]
      constructor
      · rintro ⟨h1, h2⟩
        refine ⟨by omega, ?_⟩
        have he : i - n = (i - (n + 1)) + 1 := by omega
        rw [he, List.get?_cons_succ]
        exact h2
      · rintro ⟨h1, h2⟩
        by_cases hin : i = n
        · subst hin
          simp at h2
        · have he : i - n = (i - (n + 1)) + 1 := by omega
          rw [he, List.get?_cons_succ] at h2
          exact ⟨by omega, h2⟩
    | some hh =>
      constructor
      · intro hmem
        rcases List.mem_cons.mp hmem with hEq | hTail
        · have hieq : i = n := hinj _ _ hEq
          subst hieq
          simp
        · obtain ⟨h1, h2⟩ := (ih (n + 1)).mp hTail
          refine ⟨by omega, ?_⟩
          have he : i - n = (i - (n + 1)) + 1 := by omega
          rw [he, List.get?_cons_succ]
          exact h2
      · rintro ⟨h1, h2⟩
        by_cases hin : i = n
        · subst hin
          exact List.mem_cons_self _ _
        · have he : i - n = (i - (n + 1)) + 1 := by omega
          rw [he, List.get?_cons_succ] at h2
          exact List.mem_cons_of_mem _ ((ih (n + 1)).mpr ⟨by omega, h2⟩)

/-- C7 (counterexample): constructing a sender with a non-zero metrics
port already arms the metric transport's flush timer and the registry's
timer — the construction's own effect trace contains both arming
effects, so construction does not leave the timers unarmed. -/
theorem construction_arms_timers :
    Effect.startHandler metricHandler ∈ (NewProxySender cfgMetricOnly).2.2 ∧
    Effect.startRegistry ∈ (NewProxySender cfgMetricOnly).2.2 :=
  ⟨by decide, by decide⟩

/-- C7 (amended): `Start` arms exactly the configured transports' timers
and the registry's timer; timers are armed only through `Start`, but
`NewProxySender` itself invokes `Start` on success — a failed
construction arms nothing, and a successful construction's effect trace
is exactly `Start` of the returned sender. -/
theorem start_arms_configured_timers (cfg : ProxyConfiguration) (s : proxySender) :
    (∀ i, Effect.startHandler i ∈ Start s ↔ (getHandler s i).isSome = true) ∧
    Effect.startRegistry ∈ Start s ∧
    ((NewProxySender cfg).1 = .error "at least one proxy port should be enabled" →
      (NewProxySender cfg).2.2 = []) ∧
    (∀ s', (NewProxySender cfg).1 = .ok s' → (NewProxySender cfg).2.2 = Start s') := by
  refine ⟨fun i => ?_, ?_, fun herr => ?_, fun s' hs' => ?_⟩
  · rw [Start, List.mem_append,
      mem_handlerEffs Effect.startHandler (fun a b h => by injection h) i s.handlers 0]
    simp [getHandler]
  · simp [Start]
  · by_cases hb : (buildHandlers (updCfg cfg)).any Option.isSome
    · obtain ⟨s'', hs''⟩ := (newProxySender_isOk cfg).mpr hb
      exact absurd (hs''.symm.trans herr) (by simp)
    · simp only [Bool.not_eq_true] at hb
      simp [NewProxySender, hb]
  · by_cases hb : (buildHandlers (updCfg cfg)).any Option.isSome
    · simp only [NewProxySender, hb, if_true] at hs' ⊢
      injection hs' with h
      subst h
      rfl
    · simp only [Bool.not_eq_true] at hb
      simp [NewProxySender, hb] at hs'

/-- Witness for C7's amended theorem: exercised on a concrete sender and
two concrete constructions (one failing, one succeeding). -/
theorem start_arms_configured_timers_witness :
    (Effect.startHandler metricHandler ∈ Start twoFailSender ↔
      (getHandler twoFailSender metricHandler).isSome = true) ∧
    Effect.startRegistry ∈ Start twoFailSender ∧
    (NewProxySender { Host := "h" }).2.2 = [] ∧
    ∃ s, (NewProxySender cfgMetricOnly).1 = .ok s ∧
      (NewProxySender cfgMetricOnly).2.2 = Start s := by
  obtain ⟨s, hs⟩ := (newProxySender_isOk cfgMetricOnly).mpr (by decide)
  have h := start_arms_configured_timers cfgMetricOnly twoFailSender
  exact ⟨h.1 metricHandler, h.2.1,
    (start_arms_configured_timers { Host := "h" } twoFailSender).2.2.1 rfl,
    s, hs, h.2.2.2 s hs⟩

/-- The flush loop accumulates exactly the newline-joined messages of the
failing configured handlers and one flush effect per configured slot. -/
theorem flushLoop_eq (n : Nat) (l : List (Option ConnectionHandler)) :
    flushLoop n l =
      (concatMsgs (failedFlushMsgs l), handlerEffs Effect.flushHandler n l) := by
  induction l generalizing n with
  | nil => rfl
  | cons hd t ih =>
    cases hd with
    | none =>
      rw [show flushLoop n (none :: t) = flushLoop (n + 1) t from rfl, ih (n + 1)]
      rfl
    | some h =>
      cases hf : h.flushResult with
      | none =>
        simp only [flushLoop, hf, ih (n + 1)]
        simp [failedFlushMsgs, handlerEffs, hf]
      | some e =>
        simp only [flushLoop, hf, ih (n + 1)]
        simp [failedFlushMsgs, handlerEffs, concatMsgs, hf]

/-- A non-empty message list concatenates to a non-empty string. -/
theorem concatMsgs_ne_empty (m : String) (ms : List String) :
    concatMsgs (m :: ms) ≠ "" := by
  intro hcon
  have hlen := congrArg String.length hcon
  have h0 : ("" : String).length = 0 := rfl
  have h1 : ("\n" : String).length = 1 := rfl
  simp only [concatMsgs, String.length_append, h0, h1] at hlen
  omega

/-- C8: `Flush` flushes every configured transport (one flush effect per
occupied slot, regardless of failures), returns no error exactly when no
configured transport's flush failed, and otherwise returns the
newline-concatenation of all failing transports' messages with the outer
newlines trimmed. -/
theorem flush_collects_all_errors (s : proxySender) :
    (∀ i, Effect.flushHandler i ∈ (Flush s).2 ↔ (getHandler s i).isSome = true) ∧
    ((Flush s).1 = none ↔ failedFlushMsgs s.handlers = []) ∧
    (failedFlushMsgs s.handlers ≠ [] →
      (Flush s).1 = some (trimNewlines (concatMsgs (failedFlushMsgs s.handlers)))) := by
  refine ⟨fun i => ?_, ?_, fun hne => ?_⟩
  · simp only [Flush, flushLoop_eq]
    rw [mem_handlerEffs Effect.flushHandler (fun a b h => by injection h) i s.handlers 0]
    simp [getHandler]
  · simp only [Flush, flushLoop_eq]
    cases hm : failedFlushMsgs s.handlers with
    | nil => simp [concatMsgs]
    | cons m ms => simp [concatMsgs_ne_empty m ms]
  · have hcne : concatMsgs (failedFlushMsgs s.handlers) ≠ "" := by
      cases hm : failedFlushMsgs s.handlers with
      | nil => exact absurd hm hne
      | cons m ms => exact concatMsgs_ne_empty m ms
    simp only [Flush, flushLoop_eq]
    rw [if_neg hcne]

/-- Witness for C8: on a sender whose metric and histogram transports
both fail to flush, both flush effects occur, the no-failure case is
exercised on the unconfigured sender, and the returned error is the
trimmed concatenation of the two messages. -/
theorem flush_collects_all_errors_witness :
    (Effect.flushHandler metricHandler ∈ (Flush twoFailSender).2 ↔
      (getHandler twoFailSender metricHandler).isSome = true) ∧
    ((Flush emptySender).1 = none ↔ failedFlushMsgs emptySender.handlers = []) ∧
    (Flush twoFailSender).1 =
      some (trimNewlines (concatMsgs (failedFlushMsgs twoFailSender.handlers))) :=
  ⟨(flush_collects_all_errors twoFailSender).1 metricHandler,
    (flush_collects_all_errors emptySender).2.1,
    (flush_collects_all_errors twoFailSender).2.2 (by decide)⟩

/-- Wrapping is the identity inside the int64 range. -/
theorem i64wrap_eq_self (n : Int) (h1 : -(2 ^ 63) ≤ n) (h2 : n < 2 ^ 63) :
    i64wrap n = n := by
  have hp : (2 : Int) ^ 63 = 9223372036854775808 := by norm_num
  have hq : (2 : Int) ^ 64 = 18446744073709551616 := by norm_num
  unfold i64wrap
  rw [hp, hq] at *
  rw [Int.emod_eq_of_lt (by omega) (by omega)]
  omega

/-- The failure-count loop computes the exact sum of the configured
handlers' counters whenever the counters are non-negative and the total
stays in the int64 range. -/
theorem failureLoop_eq (l : List (Option ConnectionHandler)) (acc : Int)
    (hnn : ∀ c ∈ failureCounts l, 0 ≤ c) (hacc : 0 ≤ acc)
    (hbound : acc + (failureCounts l).sum < 2 ^ 63) :
    failureLoop acc l = acc + (failureCounts l).sum := by
  induction l generalizing acc with
  | nil => simp [failureLoop, failureCounts]
  | cons hd t ih =>
    cases hd with
    | none =>
      have hcons : failureCounts (none :: t) = failureCounts t := by
        simp [failureCounts]
      rw [hcons] at hnn hbound
      rw [show failureLoop acc (none :: t) = failureLoop acc t from rfl,
        ih acc hnn hacc hbound, hcons]
    | some h =>
      have hcons : failureCounts (some h :: t) = h.failureCount :: failureCounts t := by
        simp [failureCounts]
      rw [hcons] at hnn hbound
      have hc : 0 ≤ h.failureCount := hnn _ (List.mem_cons_self _ _)
      have hnn' : ∀ c ∈ failureCounts t, 0 ≤ c :=
        fun c hcm => hnn c (List.mem_cons_of_mem _ hcm)
      have hsumnn : 0 ≤ (failureCounts t).sum := List.sum_nonneg hnn'
      rw [List.sum_cons] at hbound
      have hp : (2 : Int) ^ 63 = 9223372036854775808 := by norm_num
      rw [hp] at hbound
      have hw : i64wrap (acc + h.failureCount) = acc + h.failureCount := by
        apply i64wrap_eq_self <;> rw [hp] <;> omega
      rw [show failureLoop acc (some h :: t) =
          failureLoop (i64wrap (acc + h.failureCount)) t from rfl, hw,
        ih _ hnn' (by omega) (by rw [hp]; omega), hcons, List.sum_cons]
      ring

/-- C9: `GetFailureCount` returns the sum of the failure counters of all
configured transports (exactly, whenever the counters are non-negative
and the total fits int64) and produces no transport side effects. -/
theorem getFailureCount_sums (s : proxySender)
    (hnn : ∀ c ∈ failureCounts s.handlers, 0 ≤ c)
    (hbound : (failureCounts s.handlers).sum < 2 ^ 63) :
    (GetFailureCount s).1 = (failureCounts s.handlers).sum ∧
    (GetFailureCount s).2 = [] := by
  refine ⟨?_, rfl⟩
  have h := failureLoop_eq s.handlers 0 hnn le_rfl (by simpa using hbound)
  simpa [GetFailureCount] using h

/-- Witness for C9: 3 failures on the metric transport and 2 on the
histogram transport sum to 5, with no side effects. -/
theorem getFailureCount_sums_witness :
    (GetFailureCount twoFailSender).1 = 5 ∧ (GetFailureCount twoFailSender).2 = [] := by
  have h := getFailureCount_sums twoFailSender (by decide) (by decide)
  exact ⟨h.1.trans (by decide), h.2⟩

/-- Every handler placed in a slot by `buildHandlers` carries the
configuration's flush interval. -/
theorem flushInterval_of_mem_buildHandlers (cfg : ProxyConfiguration)
    (h : ConnectionHandler) (hmem : some h ∈ buildHandlers cfg) :
    h.flushIntervalSeconds = cfg.FlushIntervalSeconds := by
  simp only [buildHandlers, List.mem_cons, List.not_mem_nil, or_false] at hmem
  rcases hmem with h1 | h1 | h1 | h1 <;> split at h1 <;>
    first
      | exact Option.noConfusion h1
      | (injection h1 with h2; rw [h2]; rfl)

/-- C10: `NewProxySender` hands back the caller's configuration with the
flush interval overwritten by the default exactly when it was zero and
every other field unchanged, and the overwrite happens before any
transport is built: every constructed handler carries the updated
interval. -/
theorem newProxySender_cfg_mutation (cfg : ProxyConfiguration) :
    (NewProxySender cfg).2.1 = updCfg cfg ∧
    (cfg.FlushIntervalSeconds = 0 →
      (NewProxySender cfg).2.1 =
        { cfg with FlushIntervalSeconds := defaultProxyFlushInterval }) ∧
    (cfg.FlushIntervalSeconds ≠ 0 → (NewProxySender cfg).2.1 = cfg) ∧
    ((NewProxySender cfg).2.1.Host = cfg.Host ∧
      (NewProxySender cfg).2.1.MetricsPort = cfg.MetricsPort ∧
      (NewProxySender cfg).2.1.DistributionPort = cfg.DistributionPort ∧
      (NewProxySender cfg).2.1.TracingPort = cfg.TracingPort ∧
      (NewProxySender cfg).2.1.EventsPort = cfg.EventsPort) ∧
    (∀ s, (NewProxySender cfg).1 = .ok s → ∀ h, some h ∈ s.handlers →
      h.flushIntervalSeconds = (updCfg cfg).FlushIntervalSeconds) := by
  have h21 : (NewProxySender cfg).2.1 = updCfg cfg := by
    by_cases hb : (buildHandlers (updCfg cfg)).any Option.isSome
    · simp [NewProxySender, hb]
    · simp only [Bool.not_eq_true] at hb
      simp [NewProxySender, hb]
  refine ⟨h21, fun h0 => ?_, fun hne => ?_, ?_, fun s hs h hmem => ?_⟩
  · rw [h21]
    simp [updCfg, h0]
  · rw [h21]
    simp only [updCfg]
    rw [if_neg hne]
  · rw [h21]
    exact ⟨rfl, rfl, rfl, rfl, rfl⟩
  · exact flushInterval_of_mem_buildHandlers (updCfg cfg) h
      (newProxySender_handlers cfg s hs ▸ hmem)

/-- Witness for C10: a zero-interval configuration comes back with the
default interval, a non-zero one comes back unchanged, and a handler
built from the zero-interval configuration carries the default. -/
theorem newProxySender_cfg_mutation_witness :
    (NewProxySender cfgMetricOnly).2.1 =
      { cfgMetricOnly with FlushIntervalSeconds := defaultProxyFlushInterval } ∧
    (NewProxySender cfgExample).2.1 = cfgExample ∧
    ∃ s, (NewProxySender cfgMetricOnly).1 = .ok s ∧ ∀ h, some h ∈ s.handlers →
      h.flushIntervalSeconds = (updCfg cfgMetricOnly).FlushIntervalSeconds := by
  obtain ⟨s, hs⟩ := (newProxySender_isOk cfgMetricOnly).mpr (by decide)
  exact ⟨(newProxySender_cfg_mutation cfgMetricOnly).2.1 rfl,
    (newProxySender_cfg_mutation cfgExample).2.2.1 (by decide),
    s, hs, fun h hm => (newProxySender_cfg_mutation cfgMetricOnly).2.2.2.2 s hs h hm⟩

end Senders
